import Mathlib

/-!
Shallow embedding of `src/index.js` (a Telegram file-exchange / message-relay
bot), restricted to the parts the verified claims are about: the PIN registry
(`generatePin`, `isPinUnique`, `generateUniquePin`), the per-chat conversation
state machine driven by `bot.on('message', ...)`, the upload/bind and
PIN-resolve paths, and the URL-download path.

Modelling conventions:
* The Firestore collection `FILES_COLLECTION` is an association list from PIN
  strings to `FileRecord`s, wrapped in `Option` (`none` models `db == null`,
  i.e. the collection being unavailable).
* Randomness (`Math.random()` inside `generatePin`) is a stream of natural
  numbers supplied by the environment.
* External calls (relay API, Gemini AI, URL fetch, Telegram send) are modelled
  by environment-supplied outcomes; the call itself is recorded as an emitted
  `Effect` so theorems can state that a capability was invoked.
* The original `generateUniquePin` is an unbounded `while (true)` loop; it is
  embedded fuel-indexed: `generateUniquePin coll rands fuel` returns the
  loop's answer when the loop terminates within `fuel` iterations and `none`
  otherwise, so `(∀ fuel, ... = none)` expresses nontermination.
* JavaScript truthiness of strings (`""` is falsy) and of `file_size`
  (`0`/`undefined` falsy) is modelled explicitly.
-/

/-- Conversation states, from the `STATES` object in `src/index.js`. -/
inductive BotState where
  | NONE
  | SENDMSG_ASK_NUMBER
  | SENDMSG_ASK_MESSAGE
  | YT_ASK_URL
  | UPLOAD_WAIT_FILE
  | GETFILE_ASK_PIN
  | AI_ASK_QUERY
  | DOWNLOAD_ASK_URL
deriving DecidableEq, Repr

/-- Per-chat session data: the entry `userStates.get(chatId)` (with absence
read back as `NONE`) together with the auxiliary entry
`userStates.get(chatId + '_number')`. -/
structure Session where
  state : BotState
  number : Option String
deriving DecidableEq, Repr

/-- Metadata document stored at `FILES_COLLECTION.doc(pin)` by the upload
handler (the `upload_timestamp` field is server-generated and omitted). -/
structure FileRecord where
  file_id : String
  file_name : String
  mime_type : String
  file_size : Option Nat
  pin : String
  uploaded_by : Nat
deriving DecidableEq, Repr

/-- The persisted file store: one record per PIN (the document id). -/
def Store := List (String × FileRecord)
deriving DecidableEq, Repr

/-- Model of `FILES_COLLECTION.doc(pin).get()`: look up the document with id
`pin`. -/
def storeGet (s : Store) (pin : String) : Option FileRecord :=
  (List.find? (fun kv => kv.1 = pin) s).map (fun kv => kv.2)

/-- Model of `FILES_COLLECTION.doc(pin).set(data)`: unconditional overwrite of
the document with id `pin` (Firestore `set` replaces any existing document). -/
def storeSet (s : Store) (pin : String) (r : FileRecord) : Store :=
  (pin, r) :: List.filter (fun kv => ¬ kv.1 = pin) s

/-- JavaScript truthiness of an (optional) string: `undefined` and `""` are
falsy. -/
def jsTruthyStr : Option String → Bool
  | none => false
  | some s => s ≠ ""

/-- JavaScript `x || d` for an optional string default (used for
`file_name || 'uploaded_file'`, `mime_type || 'application/octet-stream'`). -/
def jsOr (x : Option String) (d : String) : String :=
  match x with
  | none => d
  | some s => if s = "" then d else s

/-- Helper for `strStartsWith`: the first list read as an initial segment of
the second. -/
def charsStartWith : List Char → List Char → Bool
  | [], _ => true
  | _ :: _, [] => false
  | p :: ps, c :: cs => (p = c) && charsStartWith ps cs

/-- JavaScript `s.startsWith(p)` (executable model over character lists). -/
def strStartsWith (s p : String) : Bool :=
  charsStartWith p.toList s.toList

/-- JavaScript `text.split(' ')[0]`: everything before the first space. -/
def firstToken (t : String) : String :=
  String.mk (t.toList.takeWhile (fun c => c ≠ ' '))

/-- JavaScript `s.trim()`: strip leading and trailing whitespace. -/
def strTrim (s : String) : String :=
  String.mk
    (((s.toList.dropWhile Char.isWhitespace).reverse.dropWhile
      Char.isWhitespace).reverse)

/-- JavaScript `s.toUpperCase()` (ASCII, which covers the PIN alphabet). -/
def strToUpper (s : String) : String :=
  String.mk (s.toList.map Char.toUpper)

/-- The constant `TELEGRAM_FILE_LIMIT = 50 * 1024 * 1024` (50 MiB). -/
def TELEGRAM_FILE_LIMIT : Nat := 50 * 1024 * 1024

/-- The alphabet used by `generatePin`. -/
def PIN_CHARACTERS : List Char :=
  String.toList "ABCDEFGHIJKLMNOPQRSTUVWXYZ0123456789"

/-- Model of `generatePin(length = 6)`: draws `length` characters from
`PIN_CHARACTERS` at the indices produced by `Math.floor(Math.random() * 36)`,
modelled by the stream `rand` (reduced mod 36, the alphabet size). -/
def generatePin (rand : Nat → Nat) (length : Nat) : String :=
  String.mk (List.map (fun i => PIN_CHARACTERS.getD (rand i % 36) 'A')
    (List.range length))

/-- Model of `isPinUnique(pin)`: `false` when the collection is unavailable
(and on a Firestore read error, not modelled separately), otherwise
whether no document with id `pin` exists. -/
def isPinUnique (coll : Option Store) (pin : String) : Bool :=
  match coll with
  | none => false
  | some s => (storeGet s pin).isNone

/-- Fuel-indexed embedding of the `while (true)` loop body of
`generateUniquePin`: iteration `i` draws candidate `generatePin (rands i) 6`
and returns it if `isPinUnique` holds, else continues with iteration `i + 1`.
`none` means the loop has not returned within the given fuel. -/
def generateUniquePinAux (coll : Option Store) (rands : Nat → Nat → Nat) :
    Nat → Nat → Option String
  | _, 0 => none
  | i, fuel + 1 =>
    let pin := generatePin (rands i) 6
    if isPinUnique coll pin then some pin
    else generateUniquePinAux coll rands (i + 1) fuel

/-- Model of `generateUniquePin(length = 6)` with observation fuel (the loop is
unbounded; `none` for every fuel value means the call never returns). -/
def generateUniquePin (coll : Option Store) (rands : Nat → Nat → Nat)
    (fuel : Nat) : Option String :=
  generateUniquePinAux coll rands 0 fuel

theorem storeGet_storeSet_self (s : Store) (pin : String) (r : FileRecord) :
    storeGet (storeSet s pin r) pin = some r := by
  simp [storeGet, storeSet]

theorem generateUniquePinAux_isPinUnique (coll : Option Store)
    (rands : Nat → Nat → Nat) :
    ∀ fuel i p, generateUniquePinAux coll rands i fuel = some p →
      isPinUnique coll p = true := by
  intro fuel
  induction fuel with
  | zero => intro i p h; simp [generateUniquePinAux] at h
  | succ n ih =>
    intro i p h
    simp only [generateUniquePinAux] at h
    by_cases hu : isPinUnique coll (generatePin (rands i) 6) = true
    · simp [hu] at h
      rw [← h]
      exact hu
    · simp [hu] at h
      exact ih (i + 1) p h

/-- One attachment object as delivered by the Telegram API (`msg.document`,
`msg.video`, `msg.audio`, or one element of the `msg.photo` array). Optional
fields that the handler reads are kept; `file_size` is `Option` because the
Telegram API may omit it. -/
structure Attachment where
  file_id : String
  file_unique_id : String
  file_name : Option String
  mime_type : Option String
  file_size : Option Nat
deriving DecidableEq, Repr

/-- The parts of an inbound Telegram message the handler reads. `photo` is
the array of size variants (non-empty whenever present in the real API). -/
structure Msg where
  text : Option String
  document : Option Attachment
  photo : Option (List Attachment)
  video : Option Attachment
  audio : Option Attachment
  fromId : Nat
deriving DecidableEq, Repr

/-- Outbound bot messages, one constructor per distinct `bot.sendMessage`
text in the source (parameters stand for the interpolated values). -/
inductive Reply where
  | askValidNumberExample      -- line 263: valid number re-prompt with example
  | askValidNumber             -- line 271: valid number re-prompt
  | gotNumberAskMessage        -- line 269: number accepted, ask for message
  | sendingMessage             -- line 279
  | msgSentOk                  -- line 283
  | msgSentFail                -- line 285
  | msgDataError               -- line 288: number or message missing
  | askMessageAgain            -- line 293
  | ytUnavailable              -- lines 297, 502
  | askValidUrl                -- line 304
  | downloadingWait            -- line 176
  | urlFileTooLarge (size : Nat)  -- line 217
  | sendingFile                -- line 225
  | fileSentOk                 -- lines 227, 433
  | downloadError              -- line 231
  | askValidFile               -- line 329
  | uploadTooLarge (size : Nat)   -- line 335
  | uploadServiceUnavailable   -- lines 344, 508
  | storingFile                -- line 349
  | uploadSuccess (pin : String)  -- line 367
  | uploadError                -- line 377
  | downloadServiceUnavailable -- lines 384, 515
  | searchingPin (pin : String)   -- line 389
  | fileIdMissing              -- line 402
  | pinFileTooLarge (size : Nat)  -- line 410
  | downloadingStored          -- line 419
  | telegramSendError          -- line 438
  | invalidPin                 -- line 445
  | askPinAgain                -- line 454
  | preparingAi                -- line 463
  | aiAnswer (text : String)   -- line 465
  | aiUnavailable              -- lines 459, 522
  | aiQueryPrompt              -- lines 468, 526
  | startHelp                  -- line 479
  | askNumber                  -- line 499
  | askUrl                     -- line 505
  | askFile                    -- line 512
  | askPin                     -- line 519
  | cancelled                  -- line 530
  | dontUnderstand             -- lines 533, 541, 553
  | sendFileWithUploadCmd      -- line 546
deriving DecidableEq, Repr

/-- Observable effects of handling one message, in emission order. -/
inductive Effect where
  | reply (r : Reply)
  | relayCall (number message : String)     -- sendMessageViaApi POST
  | askAi (query : String)                  -- geminiModel.generateContent
  | fetchUrl (url : String)                 -- fetch(url) in downloadFileFromUrl
  | sendDocumentPath (filename : String)    -- bot.sendDocument of a local file
  | sendDocumentById (fileId filename : String)  -- bot.sendDocument by file_id
deriving DecidableEq, Repr

/-- Outcome of the `fetch(url)` call inside `downloadFileFromUrl` (error
covers a non-ok HTTP status and any thrown exception; success carries the
resolved filename and the downloaded size in bytes). -/
inductive FetchResult where
  | fetchError
  | fetchOk (filename : String) (size : Nat)
deriving DecidableEq, Repr

/-- The environment of one invocation: the persisted store (`none` when
Firestore is not initialized), availability/outcomes of the external
capabilities, the random streams feeding `generatePin`, and the observation
fuel for the unbounded retry loop. -/
structure Env where
  filesStore : Option Store
  gemini : Bool
  aiResponse : String
  relayOk : Bool
  telegramSendOk : Bool
  fetchResult : FetchResult
  pinRands : Nat → Nat → Nat
  pinFuel : Nat

/-- Result of handling one inbound message: the updated session, the updated
store, and the effects emitted, in order. -/
structure StepResult where
  session : Session
  store : Option Store
  effects : List Effect
deriving DecidableEq, Repr

/-- Attachment selection of the `UPLOAD_WAIT_FILE` handler: document, then
video, then audio, then the last (largest) photo variant; returns
`(fileObj, fileType, fileName)`. The empty-photo-array case yields `none`
(the Telegram API never delivers an empty `photo` array). -/
def pickAttachment (m : Msg) : Option (Attachment × String × String) :=
  match m.document with
  | some d => some (d, "document", jsOr d.file_name "uploaded_file")
  | none =>
  match m.video with
  | some v => some (v, "video", jsOr v.file_name "uploaded_file")
  | none =>
  match m.audio with
  | some a => some (a, "audio", jsOr a.file_name "uploaded_file")
  | none =>
  match m.photo with
  | some l =>
    match l.getLast? with
    | some p => some (p, "photo", "photo_" ++ p.file_unique_id ++ ".jpg")
    | none => none
  | none => none

/-- The upload size guard `fileObj.file_size && fileObj.file_size >
TELEGRAM_FILE_LIMIT`: a missing or zero (falsy) `file_size` never triggers
it. -/
def jsSizeOver (fs : Option Nat) : Bool :=
  match fs with
  | none => false
  | some s => (s != 0) && (decide (TELEGRAM_FILE_LIMIT < s))

/-- Model of `downloadFileFromUrl(url, chatId)`: announce, fetch, and either
report an error, report an oversized file without sending, or send the
document followed by a success confirmation. -/
def downloadFileFromUrl (fetchRes : FetchResult) (url : String) :
    List Effect :=
  Effect.reply Reply.downloadingWait ::
  Effect.fetchUrl url ::
  match fetchRes with
  | FetchResult.fetchError => [Effect.reply Reply.downloadError]
  | FetchResult.fetchOk filename size =>
    if TELEGRAM_FILE_LIMIT < size then
      [Effect.reply (Reply.urlFileTooLarge size)]
    else
      [Effect.reply Reply.sendingFile, Effect.sendDocumentPath filename,
       Effect.reply Reply.fileSentOk]

/-- Final fallback of the message handler (`else if (currentState ===
STATES.NONE)`): runs only when the command section did not match, and only
for the state the handler read at entry; replies according to whether the
message carried text or an attachment. -/
def fallbackSection (entryState : BotState) (sess : Session)
    (st : Option Store) (m : Msg) (acc : List Effect) : StepResult :=
  if entryState = BotState.NONE then
    if jsTruthyStr m.text then
      ⟨sess, st, acc ++ [Effect.reply Reply.dontUnderstand]⟩
    else if m.document.isSome || m.photo.isSome || m.video.isSome
        || m.audio.isSome then
      ⟨sess, st, acc ++ [Effect.reply Reply.sendFileWithUploadCmd]⟩
    else
      ⟨sess, st, acc ++ [Effect.reply Reply.dontUnderstand]⟩
  else
    ⟨sess, st, acc⟩

/-- The command section of the message handler (`if (text &&
text.startsWith('/'))` ... at lines 474-556): matches on the first
whitespace-delimited token and either replies, or sets the session state and
replies; `/cancel` clears both the state and the stored number. `entryState`
is the state read at the top of the handler (used by the fallback),
`sess` the session as left by the conversation section. -/
def commandSection (env : Env) (entryState : BotState) (sess : Session)
    (st : Option Store) (m : Msg) (acc : List Effect) : StepResult :=
  match m.text with
  | none => fallbackSection entryState sess st m acc
  | some t =>
    if t ≠ "" ∧ strStartsWith t "/" then
      let command := firstToken t
      if command = "/start" then
        ⟨sess, st, acc ++ [Effect.reply Reply.startHelp]⟩
      else if command = "/sendmsg" then
        ⟨⟨BotState.SENDMSG_ASK_NUMBER, sess.number⟩, st,
          acc ++ [Effect.reply Reply.askNumber]⟩
      else if command = "/yt_download" then
        ⟨⟨BotState.YT_ASK_URL, sess.number⟩, st,
          acc ++ [Effect.reply Reply.ytUnavailable]⟩
      else if command = "/download_url" then
        ⟨⟨BotState.DOWNLOAD_ASK_URL, sess.number⟩, st,
          acc ++ [Effect.reply Reply.askUrl]⟩
      else if command = "/upload_file" then
        match st with
        | none => ⟨sess, none, acc ++ [Effect.reply Reply.uploadServiceUnavailable]⟩
        | some _ => ⟨⟨BotState.UPLOAD_WAIT_FILE, sess.number⟩, st,
            acc ++ [Effect.reply Reply.askFile]⟩
      else if command = "/get_file" then
        match st with
        | none => ⟨sess, none, acc ++ [Effect.reply Reply.downloadServiceUnavailable]⟩
        | some _ => ⟨⟨BotState.GETFILE_ASK_PIN, sess.number⟩, st,
            acc ++ [Effect.reply Reply.askPin]⟩
      else if command = "/ask_ai" then
        if env.gemini then
          ⟨⟨BotState.AI_ASK_QUERY, sess.number⟩, st,
            acc ++ [Effect.reply Reply.aiQueryPrompt]⟩
        else ⟨sess, st, acc ++ [Effect.reply Reply.aiUnavailable]⟩
      else if command = "/cancel" then
        ⟨⟨BotState.NONE, none⟩, st, acc ++ [Effect.reply Reply.cancelled]⟩
      else
        ⟨sess, st, acc ++ [Effect.reply Reply.dontUnderstand]⟩
    else fallbackSection entryState sess st m acc

/-- The `fileMetadata` object built by the upload handler before
`FILES_COLLECTION.doc(uniquePin).set(fileMetadata)`. -/
def mkFileMetadata (fileObj : Attachment) (fileName : String) (uid : Nat)
    (pin : String) : FileRecord :=
  { file_id := fileObj.file_id,
    file_name := fileName,
    mime_type := jsOr fileObj.mime_type "application/octet-stream",
    file_size := fileObj.file_size,
    pin := pin,
    uploaded_by := uid }

/-- The JavaScript regex test `/^\d{10,}$/.test(numberInput)`. -/
def matchesNumberRegex (t : String) : Bool :=
  (decide (10 ≤ t.length)) && t.toList.all Char.isDigit

/-- Model of the whole `bot.on('message', ...)` handler for one chat: runs
the conversation-state section first (with its early `return`s), then — on
the fall-through paths — the command section and the `NONE`-state fallback.
The result is `none` exactly when the unbounded PIN retry loop does not
return within `env.pinFuel` iterations (the upload path only). -/
def handleMessage (env : Env) (sess : Session) (m : Msg) :
    Option StepResult :=
  let st := env.filesStore
  match sess.state with
  | BotState.NONE => some (commandSection env sess.state sess st m [])
  | BotState.SENDMSG_ASK_NUMBER =>
    match m.text with
    | some t =>
      if t ≠ "" ∧ ¬ strStartsWith t "/" then
        if matchesNumberRegex t then
          some (commandSection env sess.state
            ⟨BotState.SENDMSG_ASK_MESSAGE, some t⟩ st m
            [Effect.reply Reply.gotNumberAskMessage])
        else
          -- early return: stay in the same state
          some ⟨sess, st, [Effect.reply Reply.askValidNumberExample]⟩
      else
        some (commandSection env sess.state sess st m
          [Effect.reply Reply.askValidNumber])
    | none =>
      some (commandSection env sess.state sess st m
        [Effect.reply Reply.askValidNumber])
  | BotState.SENDMSG_ASK_MESSAGE =>
    match m.text with
    | some t =>
      if t ≠ "" ∧ ¬ strStartsWith t "/" then
        let effs :=
          match sess.number with
          | some n =>
            if n ≠ "" then
              [Effect.reply Reply.sendingMessage, Effect.relayCall n t,
               Effect.reply (if env.relayOk then Reply.msgSentOk
                 else Reply.msgSentFail)]
            else [Effect.reply Reply.msgDataError]
          | none => [Effect.reply Reply.msgDataError]
        -- userStates.delete(chatId); userStates.delete(chatId + '_number')
        some (commandSection env sess.state ⟨BotState.NONE, none⟩ st m effs)
      else
        some (commandSection env sess.state sess st m
          [Effect.reply Reply.askMessageAgain])
    | none =>
      some (commandSection env sess.state sess st m
        [Effect.reply Reply.askMessageAgain])
  | BotState.YT_ASK_URL =>
    some (commandSection env sess.state ⟨BotState.NONE, sess.number⟩ st m
      [Effect.reply Reply.ytUnavailable])
  | BotState.DOWNLOAD_ASK_URL =>
    match m.text with
    | some t =>
      if t ≠ "" ∧ (strStartsWith t "http://" || strStartsWith t "https://") then
        some (commandSection env sess.state ⟨BotState.NONE, sess.number⟩ st m
          (downloadFileFromUrl env.fetchResult t))
      else
        some (commandSection env sess.state sess st m
          [Effect.reply Reply.askValidUrl])
    | none =>
      some (commandSection env sess.state sess st m
        [Effect.reply Reply.askValidUrl])
  | BotState.UPLOAD_WAIT_FILE =>
    match pickAttachment m with
    | none =>
      -- early return: stay in the same state
      some ⟨sess, st, [Effect.reply Reply.askValidFile]⟩
    | some (fileObj, _fileType, fileName) =>
      if jsSizeOver fileObj.file_size then
        -- early return: userStates.delete(chatId) only
        some ⟨⟨BotState.NONE, sess.number⟩, st,
          [Effect.reply (Reply.uploadTooLarge (fileObj.file_size.getD 0))]⟩
      else
        match st with
        | none =>
          -- early return
          some ⟨⟨BotState.NONE, sess.number⟩, none,
            [Effect.reply Reply.uploadServiceUnavailable]⟩
        | some stor =>
          match generateUniquePin (some stor) env.pinRands env.pinFuel with
          | none => none   -- the retry loop does not return
          | some uniquePin =>
            let md := mkFileMetadata fileObj fileName m.fromId uniquePin
            some (commandSection env sess.state ⟨BotState.NONE, sess.number⟩
              (some (storeSet stor uniquePin md)) m
              [Effect.reply Reply.storingFile,
               Effect.reply (Reply.uploadSuccess uniquePin)])
  | BotState.GETFILE_ASK_PIN =>
    match m.text with
    | some t =>
      if t ≠ "" ∧ ¬ strStartsWith t "/" then
        let pin := strToUpper (strTrim t)
        match st with
        | none =>
          -- early return
          some ⟨⟨BotState.NONE, sess.number⟩, none,
            [Effect.reply Reply.downloadServiceUnavailable]⟩
        | some stor =>
          match storeGet stor pin with
          | some md =>
            let telegramFileId := md.file_id
            let fileName := jsOr (some md.file_name) "downloaded_file"
            let fileSize := md.file_size.getD 0
            if telegramFileId = "" then
              -- early return
              some ⟨⟨BotState.NONE, sess.number⟩, st,
                [Effect.reply (Reply.searchingPin pin),
                 Effect.reply Reply.fileIdMissing]⟩
            else if TELEGRAM_FILE_LIMIT < fileSize then
              -- early return
              some ⟨⟨BotState.NONE, sess.number⟩, st,
                [Effect.reply (Reply.searchingPin pin),
                 Effect.reply (Reply.pinFileTooLarge fileSize)]⟩
            else
              some (commandSection env sess.state
                ⟨BotState.NONE, sess.number⟩ st m
                [Effect.reply (Reply.searchingPin pin),
                 Effect.reply Reply.downloadingStored,
                 Effect.sendDocumentById telegramFileId fileName,
                 Effect.reply (if env.telegramSendOk then Reply.fileSentOk
                   else Reply.telegramSendError)])
          | none =>
            some (commandSection env sess.state
              ⟨BotState.NONE, sess.number⟩ st m
              [Effect.reply (Reply.searchingPin pin),
               Effect.reply Reply.invalidPin])
      else
        some (commandSection env sess.state sess st m
          [Effect.reply Reply.askPinAgain])
    | none =>
      some (commandSection env sess.state sess st m
        [Effect.reply Reply.askPinAgain])
  | BotState.AI_ASK_QUERY =>
    match m.text with
    | some t =>
      if t ≠ "" ∧ ¬ strStartsWith t "/" then
        if env.gemini then
          some (commandSection env sess.state ⟨BotState.NONE, sess.number⟩
            st m
            [Effect.reply Reply.preparingAi, Effect.askAi t,
             Effect.reply (Reply.aiAnswer env.aiResponse)])
        else
          -- early return
          some ⟨⟨BotState.NONE, sess.number⟩, st,
            [Effect.reply Reply.aiUnavailable]⟩
      else
        some (commandSection env sess.state sess st m
          [Effect.reply Reply.aiQueryPrompt])
    | none =>
      some (commandSection env sess.state sess st m
        [Effect.reply Reply.aiQueryPrompt])

/-!
Interleaving model for PIN issuance (claim C1). In the source, claiming a
PIN is two separate store operations: the `isPinUnique` read inside
`generateUniquePin` (an `await`ed `doc.get()`), and — later, in the upload
handler — the unconditional `doc.set()` write. Two serverless invocations
may interleave these freely. Each issuance attempt is modelled as a
two-instruction task: check, then (if the check saw the pin unused) write.
-/

/-- Program counter of one issuance attempt. -/
inductive Phase where
  | toCheck    -- about to run the isPinUnique read
  | toWrite    -- read saw the pin unused; about to run doc.set
  | doneOk     -- returned successfully with its candidate
  | doneRetry  -- read saw the pin taken; would retry with a new candidate
deriving DecidableEq, Repr

/-- One in-flight issuance attempt: its candidate pin, the record it will
write, and its current phase. -/
structure IssueTask where
  cand : String
  record : FileRecord
  phase : Phase
deriving DecidableEq, Repr

/-- One step of an issuance attempt against the shared store, exactly as the
code runs it: a read (`isPinUnique`) that only observes, then a blind
overwrite (`doc.set`). -/
def stepTask (s : Store) (t : IssueTask) : IssueTask × Store :=
  match t.phase with
  | Phase.toCheck =>
    if isPinUnique (some s) t.cand then ({ t with phase := Phase.toWrite }, s)
    else ({ t with phase := Phase.doneRetry }, s)
  | Phase.toWrite => ({ t with phase := Phase.doneOk }, storeSet s t.cand t.record)
  | _ => (t, s)

/-- Run two issuance attempts under a schedule (`false` steps the first task,
`true` the second); returns the final store and tasks. -/
def runSched (s : Store) (t1 t2 : IssueTask) :
    List Bool → Store × IssueTask × IssueTask
  | [] => (s, t1, t2)
  | b :: rest =>
    if b then
      let p := stepTask s t2
      runSched p.2 t1 p.1 rest
    else
      let p := stepTask s t1
      runSched p.2 p.1 t2 rest

/-- The string an issuance attempt returned, if it completed successfully. -/
def taskResult (t : IssueTask) : Option String :=
  if t.phase = Phase.doneOk then some t.cand else none

/-- Concrete records for the two concurrent uploaders. -/
def recA : FileRecord :=
  { file_id := "FID-A", file_name := "a.bin",
    mime_type := "application/octet-stream", file_size := some 10,
    pin := "AAAAAA", uploaded_by := 1 }

def recB : FileRecord :=
  { file_id := "FID-B", file_name := "b.bin",
    mime_type := "application/octet-stream", file_size := some 20,
    pin := "AAAAAA", uploaded_by := 2 }

def taskA : IssueTask := { cand := "AAAAAA", record := recA, phase := Phase.toCheck }

def taskB : IssueTask := { cand := "AAAAAA", record := recB, phase := Phase.toCheck }

/-- The interleaving in which both reads happen before either write. -/
def schedBothCheckFirst : List Bool := [false, true, false, true]

/-- C1: REFUTING EVIDENCE (code_bug). PIN issuance in the code is a
check-then-write sequence, not an atomic create-if-absent: starting from an
empty registry, two interleaved issuance attempts that both draw candidate
"AAAAAA" can both observe the pin as unused and both complete successfully,
returning the SAME pin string, with the second write silently overwriting the
first record. This contradicts the claim that two successful concurrent
issuances always return distinct PINs and that each attempt claims its
candidate with a single atomic conditional write. -/
theorem c1_check_then_write_race_same_pin :
    taskResult (runSched [] taskA taskB schedBothCheckFirst).2.1 = some "AAAAAA"
    ∧ taskResult (runSched [] taskA taskB schedBothCheckFirst).2.2 = some "AAAAAA"
    ∧ (runSched [] taskA taskB schedBothCheckFirst).1 = [("AAAAAA", recB)]
    ∧ recA ≠ recB := by
  refine ⟨rfl, rfl, rfl, by decide⟩

/-- A registry state in which every candidate the generator will produce is
already occupied: the store holds the pin "AAAAAA" and the random stream
constantly yields index 0, so every `generatePin` call returns "AAAAAA". -/
def fullStoreC2 : Store := [("AAAAAA", recA)]

/-- The constantly-zero random streams (every candidate is "AAAAAA"). -/
def constRands : Nat → Nat → Nat := fun _ _ => 0

theorem generateUniquePinAux_none_of_occupied :
    ∀ fuel i, generateUniquePinAux (some fullStoreC2) constRands i fuel = none := by
  intro fuel
  induction fuel with
  | zero => intro i; rfl
  | succ n ih =>
    intro i
    have h : isPinUnique (some fullStoreC2) (generatePin (constRands i) 6)
        = false := rfl
    simp only [generateUniquePinAux, h, Bool.false_eq_true, if_false]
    exact ih (i + 1)

/-- C2: REFUTING EVIDENCE (code_bug). `generateUniquePin` is an unbounded
`while (true)` loop with no retry cap and no `RegistryExhausted` failure:
when every generated candidate is already occupied in the registry, the loop
returns nothing for EVERY fuel bound — it loops unboundedly instead of
failing after a bounded number of attempts as the claim requires. -/
theorem c2_unbounded_retry_never_terminates :
    ∀ fuel, generateUniquePin (some fullStoreC2) constRands fuel = none := by
  intro fuel
  exact generateUniquePinAux_none_of_occupied fuel 0

/-- Closed instance of the C2 evidence at fuel 1000 (far past the claimed
cap of 10 attempts, the loop still has not failed out or returned). -/
theorem c2_unbounded_retry_never_terminates_witness :
    generateUniquePin (some fullStoreC2) constRands 1000 = none :=
  c2_unbounded_retry_never_terminates 1000

/-- Message carrying only the text `/cancel`. -/
def cancelMsg : Msg :=
  { text := some "/cancel", document := none, photo := none, video := none,
    audio := none, fromId := 0 }

/-- Message carrying only the text `/download_url`. -/
def downloadUrlMsg : Msg :=
  { text := some "/download_url", document := none, photo := none,
    video := none, audio := none, fromId := 0 }

/-- Message carrying only the given text. -/
def textMsg (t : String) : Msg :=
  { text := some t, document := none, photo := none, video := none,
    audio := none, fromId := 0 }

/-- Message with no text and no attachment (for example a sticker). -/
def noTextMsg : Msg :=
  { text := none, document := none, photo := none, video := none,
    audio := none, fromId := 0 }

/-- Message carrying only a document attachment from user `uid`. -/
def docMsg (d : Attachment) (uid : Nat) : Msg :=
  { text := none, document := some d, photo := none, video := none,
    audio := none, fromId := uid }

/-- A concrete environment for closed instances: empty available store, all
capabilities available and succeeding. -/
def envW : Env :=
  { filesStore := some [], gemini := true, aiResponse := "answer",
    relayOk := true, telegramSendOk := true,
    fetchResult := FetchResult.fetchError,
    pinRands := constRands, pinFuel := 10 }

/-- C3: COUNTEREXAMPLE. In state `UPLOAD_WAIT_FILE`, an inbound `/cancel`
(with no attachment) hits the handler's early `return` for non-attachment
messages: the bot re-prompts for a file, the session stays in
`UPLOAD_WAIT_FILE`, and the stored pending number is not cleared — the
command handler that implements `/cancel` is never reached. This refutes the
claim that `/cancel` works from every non-`NONE` state. -/
theorem c3_cancel_swallowed_in_upload_wait :
    handleMessage envW ⟨BotState.UPLOAD_WAIT_FILE, some "94712345678"⟩ cancelMsg
      = some ⟨⟨BotState.UPLOAD_WAIT_FILE, some "94712345678"⟩, some [],
          [Effect.reply Reply.askValidFile]⟩
    ∧ BotState.UPLOAD_WAIT_FILE ≠ BotState.NONE := by
  exact ⟨rfl, by decide⟩

/-- C3 (amended): from every non-`NONE` state EXCEPT `UPLOAD_WAIT_FILE`, an
inbound `/cancel` transitions the session to `NONE` and clears the pending
number; `/cancel` from `NONE` leaves the session at `NONE` with no pending
data; but from `UPLOAD_WAIT_FILE` a `/cancel` without an attachment is
swallowed by the missing-attachment re-prompt and the session (state and
pending number) is unchanged. -/
theorem c3_cancel_amended (env : Env) (sess : Session)
    (h1 : sess.state ≠ BotState.NONE)
    (h2 : sess.state ≠ BotState.UPLOAD_WAIT_FILE) :
    Option.map StepResult.session (handleMessage env sess cancelMsg)
      = some ⟨BotState.NONE, none⟩
    ∧ (∀ n, Option.map StepResult.session
        (handleMessage env ⟨BotState.NONE, n⟩ cancelMsg)
        = some ⟨BotState.NONE, none⟩)
    ∧ Option.map StepResult.session
        (handleMessage env ⟨BotState.UPLOAD_WAIT_FILE, sess.number⟩ cancelMsg)
        = some ⟨BotState.UPLOAD_WAIT_FILE, sess.number⟩ := by
  obtain ⟨s, num⟩ := sess
  cases s with
  | NONE => exact absurd rfl h1
  | UPLOAD_WAIT_FILE => exact absurd rfl h2
  | SENDMSG_ASK_NUMBER => exact ⟨rfl, fun n => rfl, rfl⟩
  | SENDMSG_ASK_MESSAGE => exact ⟨rfl, fun n => rfl, rfl⟩
  | YT_ASK_URL => exact ⟨rfl, fun n => rfl, rfl⟩
  | GETFILE_ASK_PIN => exact ⟨rfl, fun n => rfl, rfl⟩
  | AI_ASK_QUERY => exact ⟨rfl, fun n => rfl, rfl⟩
  | DOWNLOAD_ASK_URL => exact ⟨rfl, fun n => rfl, rfl⟩

/-- Closed instance of the amended C3 claim at state `GETFILE_ASK_PIN`. -/
theorem c3_cancel_amended_witness :
    Option.map StepResult.session
      (handleMessage envW ⟨BotState.GETFILE_ASK_PIN, some "94712345678"⟩ cancelMsg)
      = some ⟨BotState.NONE, none⟩ :=
  (c3_cancel_amended envW ⟨BotState.GETFILE_ASK_PIN, some "94712345678"⟩
    (by decide) (by decide)).1

/-- C6: COUNTEREXAMPLE. Leaving the send-message sub-flow via a command
override does NOT clear the pending phone number: in state
`SENDMSG_ASK_MESSAGE` with pending number "94712345678", the command
`/download_url` moves the session to `DOWNLOAD_ASK_URL` but the stored
number survives, refuting the claim that the pending number is cleared on
every exit from the `ASK_NUMBER`/`ASK_MESSAGE` sub-flow. -/
theorem c6_command_override_keeps_pending_number :
    handleMessage envW ⟨BotState.SENDMSG_ASK_MESSAGE, some "94712345678"⟩
        downloadUrlMsg
      = some ⟨⟨BotState.DOWNLOAD_ASK_URL, some "94712345678"⟩, some [],
          [Effect.reply Reply.askMessageAgain, Effect.reply Reply.askUrl]⟩
    ∧ (some "94712345678" : Option String) ≠ none := by
  exact ⟨rfl, by decide⟩

/-- C6 (amended): the pending phone number is cleared when the send-message
sub-flow completes in `ASK_MESSAGE` (whatever the relay outcome) and when it
is left via `/cancel`; but a command override other than `/cancel` (for
example `/download_url`, or a repeated `/sendmsg`) moves the session out of
the sub-flow with the pending number still stored. -/
theorem c6_pending_number_amended (env : Env) (n t : String)
    (hn : n ≠ "") (ht : t ≠ "") (hcmd : strStartsWith t "/" = false) :
    Option.map StepResult.session
        (handleMessage env ⟨BotState.SENDMSG_ASK_MESSAGE, some n⟩ (textMsg t))
      = some ⟨BotState.NONE, none⟩
    ∧ Option.map StepResult.session
        (handleMessage env ⟨BotState.SENDMSG_ASK_MESSAGE, some n⟩ cancelMsg)
      = some ⟨BotState.NONE, none⟩
    ∧ Option.map StepResult.session
        (handleMessage env ⟨BotState.SENDMSG_ASK_NUMBER, some n⟩ cancelMsg)
      = some ⟨BotState.NONE, none⟩
    ∧ Option.map StepResult.session
        (handleMessage env ⟨BotState.SENDMSG_ASK_MESSAGE, some n⟩ downloadUrlMsg)
      = some ⟨BotState.DOWNLOAD_ASK_URL, some n⟩ := by
  refine ⟨?_, rfl, rfl, rfl⟩
  simp only [handleMessage, textMsg, commandSection, fallbackSection]
  rw [if_pos ⟨ht, by simp [hcmd]⟩, if_pos hn]
  simp [hcmd]

/-- Closed instance of the amended C6 claim. -/
theorem c6_pending_number_amended_witness :
    Option.map StepResult.session
        (handleMessage envW ⟨BotState.SENDMSG_ASK_MESSAGE, some "94712345678"⟩
          (textMsg "hello"))
      = some ⟨BotState.NONE, none⟩ :=
  (c6_pending_number_amended envW "94712345678" "hello"
    (by decide) (by decide) (by decide)).1

/-- C8: CONFIRMED. In state `SENDMSG_ASK_MESSAGE` with a stored pending
number `n`, any non-command text `t` triggers the relay call with the pair
`(n, t)`; a success or failure message is sent according to the relay
outcome; and state and pending number are both cleared afterwards regardless
of whether the relay call succeeded or failed (the theorem holds for every
environment, hence for both relay outcomes). -/
theorem c8_ask_message_relays_and_clears (env : Env) (n t : String)
    (hn : n ≠ "") (ht : t ≠ "") (hcmd : strStartsWith t "/" = false) :
    handleMessage env ⟨BotState.SENDMSG_ASK_MESSAGE, some n⟩ (textMsg t)
      = some ⟨⟨BotState.NONE, none⟩, env.filesStore,
          [Effect.reply Reply.sendingMessage, Effect.relayCall n t,
           Effect.reply (if env.relayOk then Reply.msgSentOk
             else Reply.msgSentFail)]⟩ := by
  simp only [handleMessage, textMsg, commandSection, fallbackSection]
  rw [if_pos ⟨ht, by simp [hcmd]⟩, if_pos hn]
  simp [hcmd]

/-- Closed instance of C8 (relay succeeding). -/
theorem c8_ask_message_relays_and_clears_witness :
    handleMessage envW ⟨BotState.SENDMSG_ASK_MESSAGE, some "94712345678"⟩
        (textMsg "hello")
      = some ⟨⟨BotState.NONE, none⟩, some [],
          [Effect.reply Reply.sendingMessage,
           Effect.relayCall "94712345678" "hello",
           Effect.reply Reply.msgSentOk]⟩ :=
  c8_ask_message_relays_and_clears envW "94712345678" "hello"
    (by decide) (by decide) (by decide)

/-- C9: CONFIRMED. In state `SENDMSG_ASK_NUMBER`: a (non-command) text
matching `^\d{10,}$` is stored as the pending number and the state moves to
`SENDMSG_ASK_MESSAGE`; a non-command text that does not match (too short,
non-digits, or empty) and a non-text message are answered with a re-prompt
and leave the state and pending number unchanged. -/
theorem c9_ask_number_validation (env : Env) (numb : Option String)
    (t u : String)
    (hmatch : matchesNumberRegex t = true)
    (hcmd_t : strStartsWith t "/" = false)
    (hu : matchesNumberRegex u = false)
    (hu_ne : u ≠ "") (hu_cmd : strStartsWith u "/" = false) :
    handleMessage env ⟨BotState.SENDMSG_ASK_NUMBER, numb⟩ (textMsg t)
      = some ⟨⟨BotState.SENDMSG_ASK_MESSAGE, some t⟩, env.filesStore,
          [Effect.reply Reply.gotNumberAskMessage]⟩
    ∧ handleMessage env ⟨BotState.SENDMSG_ASK_NUMBER, numb⟩ (textMsg u)
      = some ⟨⟨BotState.SENDMSG_ASK_NUMBER, numb⟩, env.filesStore,
          [Effect.reply Reply.askValidNumberExample]⟩
    ∧ handleMessage env ⟨BotState.SENDMSG_ASK_NUMBER, numb⟩ noTextMsg
      = some ⟨⟨BotState.SENDMSG_ASK_NUMBER, numb⟩, env.filesStore,
          [Effect.reply Reply.askValidNumber]⟩
    ∧ handleMessage env ⟨BotState.SENDMSG_ASK_NUMBER, numb⟩ (textMsg "")
      = some ⟨⟨BotState.SENDMSG_ASK_NUMBER, numb⟩, env.filesStore,
          [Effect.reply Reply.askValidNumber]⟩ := by
  have htne : t ≠ "" := by
    intro h
    rw [h] at hmatch
    simp [matchesNumberRegex] at hmatch
  refine ⟨?_, ?_, rfl, rfl⟩
  · simp only [handleMessage, textMsg, commandSection, fallbackSection]
    rw [if_pos ⟨htne, by simp [hcmd_t]⟩, if_pos hmatch]
    simp [hcmd_t]
  · simp only [handleMessage, textMsg, commandSection, fallbackSection]
    rw [if_pos ⟨hu_ne, by simp [hu_cmd]⟩, if_neg (by simp [hu])]

/-- Closed instance of C9. -/
theorem c9_ask_number_validation_witness :
    handleMessage envW ⟨BotState.SENDMSG_ASK_NUMBER, none⟩
        (textMsg "94712345678")
      = some ⟨⟨BotState.SENDMSG_ASK_MESSAGE, some "94712345678"⟩, some [],
          [Effect.reply Reply.gotNumberAskMessage]⟩ :=
  (c9_ask_number_validation envW none "94712345678" "123"
    (by decide) (by decide) (by decide) (by decide) (by decide)).1

theorem strStartsWith_slash_false_of_http (t : String)
    (h : strStartsWith t "http://" = true ∨ strStartsWith t "https://" = true) :
    strStartsWith t "/" = false := by
  obtain ⟨cs⟩ := t
  cases cs with
  | nil =>
    rcases h with h | h <;> simp [strStartsWith, charsStartWith] at h
  | cons c cs' =>
    have hc : c = 'h' := by
      rcases h with h | h <;>
      · simp [strStartsWith, charsStartWith, String.toList] at h
        exact h.1.symm
    subst hc
    simp [strStartsWith, charsStartWith, String.toList]

/-- C7: CONFIRMED. In state `DOWNLOAD_ASK_URL`: a text starting with
`http://` or `https://` invokes the URL-fetch capability and returns the
session to `NONE` after the single attempt; when the fetch succeeds within
the 50 MiB limit the file is sent back as an outbound document followed by a
success confirmation, and when the size is exceeded only an oversize report
is emitted (no document is sent); a non-URL (non-command) input re-prompts
and stays in state. -/
theorem c7_download_url_flow (env : Env) (numb : Option String) (t u : String)
    (hurl : strStartsWith t "http://" = true
      ∨ strStartsWith t "https://" = true)
    (htne : t ≠ "")
    (hu_ne : u ≠ "")
    (hu1 : strStartsWith u "http://" = false)
    (hu2 : strStartsWith u "https://" = false)
    (hu_cmd : strStartsWith u "/" = false) :
    handleMessage env ⟨BotState.DOWNLOAD_ASK_URL, numb⟩ (textMsg t)
      = some ⟨⟨BotState.NONE, numb⟩, env.filesStore,
          downloadFileFromUrl env.fetchResult t⟩
    ∧ Effect.fetchUrl t ∈ downloadFileFromUrl env.fetchResult t
    ∧ (∀ name size, env.fetchResult = FetchResult.fetchOk name size →
        (size ≤ TELEGRAM_FILE_LIMIT →
          downloadFileFromUrl env.fetchResult t
            = [Effect.reply Reply.downloadingWait, Effect.fetchUrl t,
               Effect.reply Reply.sendingFile, Effect.sendDocumentPath name,
               Effect.reply Reply.fileSentOk])
        ∧ (TELEGRAM_FILE_LIMIT < size →
          downloadFileFromUrl env.fetchResult t
            = [Effect.reply Reply.downloadingWait, Effect.fetchUrl t,
               Effect.reply (Reply.urlFileTooLarge size)]))
    ∧ handleMessage env ⟨BotState.DOWNLOAD_ASK_URL, numb⟩ (textMsg u)
      = some ⟨⟨BotState.DOWNLOAD_ASK_URL, numb⟩, env.filesStore,
          [Effect.reply Reply.askValidUrl]⟩ := by
  have hslash := strStartsWith_slash_false_of_http t hurl
  refine ⟨?_, ?_, ?_, ?_⟩
  · simp only [handleMessage, textMsg, commandSection, fallbackSection]
    rw [if_pos ⟨htne, by rcases hurl with h | h <;> simp [h]⟩]
    simp [hslash]
  · cases env.fetchResult <;> simp [downloadFileFromUrl]
  · intro name size hres
    rw [hres]
    constructor
    · intro hle
      simp [downloadFileFromUrl, Nat.not_lt.mpr hle]
    · intro hlt
      simp [downloadFileFromUrl, hlt]
  · simp only [handleMessage, textMsg, commandSection, fallbackSection]
    rw [if_neg (by simp [hu1, hu2])]
    simp [hu_cmd, hu_ne]

/-- Concrete environment whose URL fetch succeeds with a 1000-byte file. -/
def envFetchOk : Env :=
  { envW with fetchResult := FetchResult.fetchOk "f.bin" 1000 }

/-- Closed instance of C7 (successful fetch of a small file). -/
theorem c7_download_url_flow_witness :
    handleMessage envFetchOk ⟨BotState.DOWNLOAD_ASK_URL, none⟩
        (textMsg "http://host/f.bin")
      = some ⟨⟨BotState.NONE, none⟩, some [],
          downloadFileFromUrl envFetchOk.fetchResult "http://host/f.bin"⟩ :=
  (c7_download_url_flow envFetchOk none "http://host/f.bin" "abc"
    (Or.inl (by decide)) (by decide) (by decide) (by decide) (by decide)
    (by decide)).1

theorem handleMessage_upload_bind (env : Env) (stor : Store) (m : Msg)
    (fo : Attachment) (ftyp fnam : String) (numb : Option String) (P : String)
    (hpick : pickAttachment m = some (fo, ftyp, fnam))
    (htext : m.text = none)
    (hsz : jsSizeOver fo.file_size = false)
    (henv : env.filesStore = some stor)
    (hpin : generateUniquePin (some stor) env.pinRands env.pinFuel = some P) :
    handleMessage env ⟨BotState.UPLOAD_WAIT_FILE, numb⟩ m
      = some ⟨⟨BotState.NONE, numb⟩,
          some (storeSet stor P (mkFileMetadata fo fnam m.fromId P)),
          [Effect.reply Reply.storingFile,
           Effect.reply (Reply.uploadSuccess P)]⟩ := by
  simp [handleMessage, hpick, hsz, henv, hpin, commandSection,
    fallbackSection, htext]

theorem handleMessage_upload_oversize (env : Env) (m : Msg) (fo : Attachment)
    (ftyp fnam : String) (numb : Option String) (s : Nat)
    (hpick : pickAttachment m = some (fo, ftyp, fnam))
    (hS : fo.file_size = some s) (h0 : s ≠ 0)
    (hgt : TELEGRAM_FILE_LIMIT < s) :
    handleMessage env ⟨BotState.UPLOAD_WAIT_FILE, numb⟩ m
      = some ⟨⟨BotState.NONE, numb⟩, env.filesStore,
          [Effect.reply (Reply.uploadTooLarge s)]⟩ := by
  simp [handleMessage, hpick, jsSizeOver, hS, h0, hgt]

theorem handleMessage_resolve_send (env : Env) (stor : Store)
    (md : FileRecord) (P t : String) (n2 : Option String)
    (henv : env.filesStore = some stor)
    (ht : strToUpper (strTrim t) = P)
    (htne : t ≠ "") (htcmd : strStartsWith t "/" = false)
    (hfind : storeGet stor P = some md)
    (hfid : md.file_id ≠ "")
    (hsz : ¬ TELEGRAM_FILE_LIMIT < md.file_size.getD 0)
    (hok : env.telegramSendOk = true) :
    handleMessage env ⟨BotState.GETFILE_ASK_PIN, n2⟩ (textMsg t)
      = some ⟨⟨BotState.NONE, n2⟩, some stor,
          [Effect.reply (Reply.searchingPin P),
           Effect.reply Reply.downloadingStored,
           Effect.sendDocumentById md.file_id
             (jsOr (some md.file_name) "downloaded_file"),
           Effect.reply Reply.fileSentOk]⟩ := by
  simp [handleMessage, textMsg, htne, htcmd, ht, henv, hfind, hfid, hsz,
    hok, commandSection, fallbackSection]

theorem handleMessage_resolve_oversize (env : Env) (stor : Store)
    (md : FileRecord) (P t : String) (n2 : Option String)
    (henv : env.filesStore = some stor)
    (ht : strToUpper (strTrim t) = P)
    (htne : t ≠ "") (htcmd : strStartsWith t "/" = false)
    (hfind : storeGet stor P = some md)
    (hfid : md.file_id ≠ "")
    (hsz : TELEGRAM_FILE_LIMIT < md.file_size.getD 0) :
    handleMessage env ⟨BotState.GETFILE_ASK_PIN, n2⟩ (textMsg t)
      = some ⟨⟨BotState.NONE, n2⟩, some stor,
          [Effect.reply (Reply.searchingPin P),
           Effect.reply (Reply.pinFileTooLarge (md.file_size.getD 0))]⟩ := by
  simp [handleMessage, textMsg, htne, htcmd, ht, henv, hfind, hfid, hsz]

/-- C4: CONFIRMED. Round-trip: binding an attachment with declared size
`S ≤ 50 MiB` and remote file reference `d.file_id` under an issued PIN `P`
stores a record whose `file_size` is `some S` and whose `file_id` is the
bound reference; resolving any input text that trims and uppercases to `P`
(resolve case-normalizes its input before lookup) finds that record and
resends the stored reference. -/
theorem c4_round_trip (env env2 : Env) (stor : Store) (d : Attachment)
    (S uid : Nat) (numb n2 : Option String) (P t : String)
    (henv : env.filesStore = some stor)
    (hS : d.file_size = some S)
    (hle : S ≤ TELEGRAM_FILE_LIMIT)
    (hfid : d.file_id ≠ "")
    (hpin : generateUniquePin (some stor) env.pinRands env.pinFuel = some P)
    (ht : strToUpper (strTrim t) = P)
    (htne : t ≠ "") (htcmd : strStartsWith t "/" = false)
    (hok : env2.telegramSendOk = true)
    (henv2 : env2.filesStore
      = some (storeSet stor P
          (mkFileMetadata d (jsOr d.file_name "uploaded_file") uid P))) :
    ∃ md : FileRecord,
      md.file_size = some S
      ∧ md.file_id = d.file_id
      ∧ handleMessage env ⟨BotState.UPLOAD_WAIT_FILE, numb⟩ (docMsg d uid)
          = some ⟨⟨BotState.NONE, numb⟩, some (storeSet stor P md),
              [Effect.reply Reply.storingFile,
               Effect.reply (Reply.uploadSuccess P)]⟩
      ∧ storeGet (storeSet stor P md) P = some md
      ∧ handleMessage env2 ⟨BotState.GETFILE_ASK_PIN, n2⟩ (textMsg t)
          = some ⟨⟨BotState.NONE, n2⟩, some (storeSet stor P md),
              [Effect.reply (Reply.searchingPin P),
               Effect.reply Reply.downloadingStored,
               Effect.sendDocumentById d.file_id
                 (jsOr (some md.file_name) "downloaded_file"),
               Effect.reply Reply.fileSentOk]⟩ := by
  refine ⟨mkFileMetadata d (jsOr d.file_name "uploaded_file") uid P,
    by simp [mkFileMetadata, hS], by simp [mkFileMetadata], ?_,
    storeGet_storeSet_self _ _ _, ?_⟩
  · exact handleMessage_upload_bind env stor (docMsg d uid) d "document"
      (jsOr d.file_name "uploaded_file") numb P (by simp [pickAttachment, docMsg])
      rfl (by simp [jsSizeOver, hS, Nat.not_lt.mpr hle]) henv hpin
  · exact handleMessage_resolve_send env2 _ _ P t n2 henv2 ht htne htcmd
      (storeGet_storeSet_self _ _ _) (by simp [mkFileMetadata, hfid])
      (by simp [mkFileMetadata, hS]; omega) hok

/-- Concrete small attachment for closed instances. -/
def attW : Attachment :=
  { file_id := "FID1", file_unique_id := "U1", file_name := some "a.txt",
    mime_type := some "text/plain", file_size := some 1000 }

/-- Environment whose store already holds the record bound from `attW`
under PIN "AAAAAA". -/
def env2W : Env :=
  { envW with filesStore := some (storeSet [] "AAAAAA"
      (mkFileMetadata attW (jsOr attW.file_name "uploaded_file") 7 "AAAAAA")) }

/-- Closed instance of C4: bind a 1000-byte attachment, then resolve the
issued PIN via the lowercase, space-padded input " aaaaaa ". -/
theorem c4_round_trip_witness :
    ∃ md : FileRecord,
      md.file_size = some 1000
      ∧ md.file_id = attW.file_id
      ∧ handleMessage envW ⟨BotState.UPLOAD_WAIT_FILE, none⟩ (docMsg attW 7)
          = some ⟨⟨BotState.NONE, none⟩, some (storeSet [] "AAAAAA" md),
              [Effect.reply Reply.storingFile,
               Effect.reply (Reply.uploadSuccess "AAAAAA")]⟩
      ∧ storeGet (storeSet [] "AAAAAA" md) "AAAAAA" = some md
      ∧ handleMessage env2W ⟨BotState.GETFILE_ASK_PIN, none⟩
            (textMsg " aaaaaa ")
          = some ⟨⟨BotState.NONE, none⟩, some (storeSet [] "AAAAAA" md),
              [Effect.reply (Reply.searchingPin "AAAAAA"),
               Effect.reply Reply.downloadingStored,
               Effect.sendDocumentById attW.file_id
                 (jsOr (some md.file_name) "downloaded_file"),
               Effect.reply Reply.fileSentOk]⟩ :=
  c4_round_trip envW env2W [] attW 1000 7 none none "AAAAAA" " aaaaaa "
    rfl rfl (by decide) (by decide) (by decide) (by decide) (by decide)
    (by decide) rfl rfl

/-- C5: CONFIRMED. Size boundary, strict on both paths: binding an
attachment declaring exactly `50 * 1024 * 1024` bytes succeeds while one
byte more is rejected with the oversize reply and no record is written; on
the PIN-resolve path a stored record of exactly the limit is resent while
one byte over yields only the oversize report and no document send. -/
theorem c5_size_boundary (env env2 : Env) (stor stor2 : Store)
    (dLim dOver : Attachment) (uid : Nat) (numb n2 n3 : Option String)
    (P PL PO t u : String) (mdL mdO : FileRecord)
    (henv : env.filesStore = some stor)
    (hL : dLim.file_size = some TELEGRAM_FILE_LIMIT)
    (hO : dOver.file_size = some (TELEGRAM_FILE_LIMIT + 1))
    (hpin : generateUniquePin (some stor) env.pinRands env.pinFuel = some P)
    (henv2 : env2.filesStore = some stor2)
    (hok : env2.telegramSendOk = true)
    (hfindL : storeGet stor2 PL = some mdL)
    (hszL : mdL.file_size = some TELEGRAM_FILE_LIMIT)
    (hfidL : mdL.file_id ≠ "")
    (hfindO : storeGet stor2 PO = some mdO)
    (hszO : mdO.file_size = some (TELEGRAM_FILE_LIMIT + 1))
    (hfidO : mdO.file_id ≠ "")
    (ht : strToUpper (strTrim t) = PL) (htne : t ≠ "")
    (htcmd : strStartsWith t "/" = false)
    (hu : strToUpper (strTrim u) = PO) (hune : u ≠ "")
    (hucmd : strStartsWith u "/" = false) :
    handleMessage env ⟨BotState.UPLOAD_WAIT_FILE, numb⟩ (docMsg dLim uid)
      = some ⟨⟨BotState.NONE, numb⟩,
          some (storeSet stor P
            (mkFileMetadata dLim (jsOr dLim.file_name "uploaded_file") uid P)),
          [Effect.reply Reply.storingFile,
           Effect.reply (Reply.uploadSuccess P)]⟩
    ∧ handleMessage env ⟨BotState.UPLOAD_WAIT_FILE, numb⟩ (docMsg dOver uid)
      = some ⟨⟨BotState.NONE, numb⟩, env.filesStore,
          [Effect.reply (Reply.uploadTooLarge (TELEGRAM_FILE_LIMIT + 1))]⟩
    ∧ handleMessage env2 ⟨BotState.GETFILE_ASK_PIN, n2⟩ (textMsg t)
      = some ⟨⟨BotState.NONE, n2⟩, some stor2,
          [Effect.reply (Reply.searchingPin PL),
           Effect.reply Reply.downloadingStored,
           Effect.sendDocumentById mdL.file_id
             (jsOr (some mdL.file_name) "downloaded_file"),
           Effect.reply Reply.fileSentOk]⟩
    ∧ handleMessage env2 ⟨BotState.GETFILE_ASK_PIN, n3⟩ (textMsg u)
      = some ⟨⟨BotState.NONE, n3⟩, some stor2,
          [Effect.reply (Reply.searchingPin PO),
           Effect.reply (Reply.pinFileTooLarge (TELEGRAM_FILE_LIMIT + 1))]⟩ := by
  refine ⟨?_, ?_, ?_, ?_⟩
  · exact handleMessage_upload_bind env stor (docMsg dLim uid) dLim "document"
      (jsOr dLim.file_name "uploaded_file") numb P
      (by simp [pickAttachment, docMsg]) rfl
      (by simp [jsSizeOver, hL]) henv hpin
  · exact handleMessage_upload_oversize env (docMsg dOver uid) dOver
      "document" (jsOr dOver.file_name "uploaded_file") numb
      (TELEGRAM_FILE_LIMIT + 1) (by simp [pickAttachment, docMsg]) hO
      (by simp [TELEGRAM_FILE_LIMIT]) (by omega)
  · exact handleMessage_resolve_send env2 stor2 mdL PL t n2 henv2 ht htne
      htcmd hfindL hfidL (by simp [hszL]) hok
  · have h := handleMessage_resolve_oversize env2 stor2 mdO PO u n3 henv2 hu
      hune hucmd hfindO hfidO (by simp [hszO])
    rw [h, hszO]
    simp

/-- Attachment declaring exactly the 50 MiB limit. -/
def dLimW : Attachment :=
  { file_id := "FIDL", file_unique_id := "UL", file_name := some "lim.bin",
    mime_type := some "application/octet-stream",
    file_size := some TELEGRAM_FILE_LIMIT }

/-- Attachment declaring one byte over the 50 MiB limit. -/
def dOverW : Attachment :=
  { file_id := "FIDO", file_unique_id := "UO", file_name := some "over.bin",
    mime_type := some "application/octet-stream",
    file_size := some (TELEGRAM_FILE_LIMIT + 1) }

/-- Stored record of exactly the limit. -/
def mdLW : FileRecord :=
  { file_id := "FIDL", file_name := "lim.bin",
    mime_type := "application/octet-stream",
    file_size := some TELEGRAM_FILE_LIMIT, pin := "AAAAAA", uploaded_by := 7 }

/-- Stored record one byte over the limit. -/
def mdOW : FileRecord :=
  { file_id := "FIDO", file_name := "over.bin",
    mime_type := "application/octet-stream",
    file_size := some (TELEGRAM_FILE_LIMIT + 1), pin := "ZZZZZZ",
    uploaded_by := 7 }

/-- Store holding both boundary records. -/
def stor2W : Store := [("AAAAAA", mdLW), ("ZZZZZZ", mdOW)]

/-- Environment over `stor2W`. -/
def env5W : Env := { envW with filesStore := some stor2W }

/-- Closed instance of C5 at the exact boundary values. -/
theorem c5_size_boundary_witness :
    handleMessage envW ⟨BotState.UPLOAD_WAIT_FILE, none⟩ (docMsg dLimW 7)
      = some ⟨⟨BotState.NONE, none⟩,
          some (storeSet [] "AAAAAA"
            (mkFileMetadata dLimW (jsOr dLimW.file_name "uploaded_file") 7
              "AAAAAA")),
          [Effect.reply Reply.storingFile,
           Effect.reply (Reply.uploadSuccess "AAAAAA")]⟩
    ∧ handleMessage envW ⟨BotState.UPLOAD_WAIT_FILE, none⟩ (docMsg dOverW 7)
      = some ⟨⟨BotState.NONE, none⟩, envW.filesStore,
          [Effect.reply (Reply.uploadTooLarge (TELEGRAM_FILE_LIMIT + 1))]⟩
    ∧ handleMessage env5W ⟨BotState.GETFILE_ASK_PIN, none⟩ (textMsg "aaaaaa")
      = some ⟨⟨BotState.NONE, none⟩, some stor2W,
          [Effect.reply (Reply.searchingPin "AAAAAA"),
           Effect.reply Reply.downloadingStored,
           Effect.sendDocumentById mdLW.file_id
             (jsOr (some mdLW.file_name) "downloaded_file"),
           Effect.reply Reply.fileSentOk]⟩
    ∧ handleMessage env5W ⟨BotState.GETFILE_ASK_PIN, none⟩ (textMsg "zzzzzz")
      = some ⟨⟨BotState.NONE, none⟩, some stor2W,
          [Effect.reply (Reply.searchingPin "ZZZZZZ"),
           Effect.reply (Reply.pinFileTooLarge (TELEGRAM_FILE_LIMIT + 1))]⟩ :=
  c5_size_boundary envW env5W [] stor2W dLimW dOverW 7 none none none
    "AAAAAA" "AAAAAA" "ZZZZZZ" "aaaaaa" "zzzzzz" mdLW mdOW
    rfl rfl rfl (by decide) rfl rfl (by decide) rfl (by decide) (by decide)
    rfl (by decide) (by decide) (by decide) (by decide) (by decide)
    (by decide) (by decide)

/-- C10: CONFIRMED. In state `UPLOAD_WAIT_FILE` the oversize rejection fires
iff the attachment's declared `file_size` is present and non-zero (truthy)
and strictly greater than `50 * 1024 * 1024`; an attachment whose declared
size is absent or zero is never rejected as oversized and is bound to a PIN
with a record that carries the declared size through unvalidated. -/
theorem c10_size_guard_truthiness (env : Env) (numb : Option String)
    (m : Msg) (fo : Attachment) (ftyp fnam : String) (stor : Store)
    (P : String) (s : Nat)
    (hpick : pickAttachment m = some (fo, ftyp, fnam))
    (htext : m.text = none)
    (henv : env.filesStore = some stor)
    (hpin : generateUniquePin (some stor) env.pinRands env.pinFuel = some P) :
    (∀ sz, jsSizeOver (some sz) = true ↔ sz ≠ 0 ∧ TELEGRAM_FILE_LIMIT < sz)
    ∧ jsSizeOver none = false
    ∧ (fo.file_size = some s → s ≠ 0 → TELEGRAM_FILE_LIMIT < s →
        handleMessage env ⟨BotState.UPLOAD_WAIT_FILE, numb⟩ m
          = some ⟨⟨BotState.NONE, numb⟩, env.filesStore,
              [Effect.reply (Reply.uploadTooLarge s)]⟩)
    ∧ (fo.file_size = none ∨ fo.file_size = some 0 →
        handleMessage env ⟨BotState.UPLOAD_WAIT_FILE, numb⟩ m
          = some ⟨⟨BotState.NONE, numb⟩,
              some (storeSet stor P (mkFileMetadata fo fnam m.fromId P)),
              [Effect.reply Reply.storingFile,
               Effect.reply (Reply.uploadSuccess P)]⟩
          ∧ (mkFileMetadata fo fnam m.fromId P).file_size = fo.file_size) := by
  refine ⟨?_, rfl, ?_, ?_⟩
  · intro sz
    simp [jsSizeOver]
  · intro hS h0 hgt
    exact handleMessage_upload_oversize env m fo ftyp fnam numb s hpick hS
      h0 hgt
  · intro hcase
    refine ⟨?_, by simp [mkFileMetadata]⟩
    have hsz : jsSizeOver fo.file_size = false := by
      rcases hcase with h | h <;> simp [jsSizeOver, h]
    exact handleMessage_upload_bind env stor m fo ftyp fnam numb P hpick
      htext hsz henv hpin

/-- Attachment with no declared size. -/
def dNoSizeW : Attachment :=
  { file_id := "FIDN", file_unique_id := "UN", file_name := some "n.bin",
    mime_type := some "application/octet-stream", file_size := none }

/-- Closed instance of C10: a size-less attachment is bound unvalidated. -/
theorem c10_size_guard_truthiness_witness :
    jsSizeOver none = false
    ∧ (handleMessage envW ⟨BotState.UPLOAD_WAIT_FILE, none⟩ (docMsg dNoSizeW 7)
        = some ⟨⟨BotState.NONE, none⟩,
            some (storeSet [] "AAAAAA"
              (mkFileMetadata dNoSizeW (jsOr dNoSizeW.file_name "uploaded_file")
                7 "AAAAAA")),
            [Effect.reply Reply.storingFile,
             Effect.reply (Reply.uploadSuccess "AAAAAA")]⟩
        ∧ (mkFileMetadata dNoSizeW (jsOr dNoSizeW.file_name "uploaded_file")
            7 "AAAAAA").file_size = dNoSizeW.file_size) :=
  ⟨(c10_size_guard_truthiness envW none (docMsg dNoSizeW 7) dNoSizeW
      "document" (jsOr dNoSizeW.file_name "uploaded_file") [] "AAAAAA" 0
      (by decide) rfl rfl (by decide)).2.1,
   (c10_size_guard_truthiness envW none (docMsg dNoSizeW 7) dNoSizeW
      "document" (jsOr dNoSizeW.file_name "uploaded_file") [] "AAAAAA" 0
      (by decide) rfl rfl (by decide)).2.2.2 (Or.inl rfl)⟩
